import Mathlib

/-!
Verification of the two client-side controllers of the repository:
`src/static/js/lightbox.js` (image lightbox overlay) and
`src/static/js/theme.js` (light/dark theme toggle persisted to
`localStorage`).  Each JS handler is embedded as a pure state-transition
function; DOM booleans (presence of a CSS class) become `Bool` fields,
element text and attributes become `String`/`Option String` fields, and
`localStorage` is an `Option String` cell whose raw accessors may throw,
modelled with `Except`.
-/

namespace Koshkina

/-! ### Lightbox controller, `src/static/js/lightbox.js` -/

/-- DOM state touched by the lightbox script: whether the overlay carries
the `is-open` class, and the `src` and `alt` of the enlarged image. -/
structure LightboxState where
  isOpen : Bool
  imgSrc : String
  imgAlt : String
deriving DecidableEq, Repr

/-- JavaScript `alt || ""`: a falsy (empty) string is replaced by `""`. -/
def jsOrEmpty (s : String) : String :=
  if s = "" then "" else s

/-- `openLightbox(src, alt)`: sets the image source and alt, adds `is-open`. -/
def openLightbox (src alt : String) (s : LightboxState) : LightboxState :=
  { s with imgSrc := src, imgAlt := jsOrEmpty alt, isOpen := true }

/-- `closeLightbox()`: removes `is-open` and blanks the image source. -/
def closeLightbox (s : LightboxState) : LightboxState :=
  { s with isOpen := false, imgSrc := "" }

/-- The element a click event's `target` resolves to inside the overlay. -/
inductive ClickTarget
  | overlayEl
  | closeBtnEl
  | imageEl
  | otherEl
deriving DecidableEq, Repr

/-- The overlay's click handler: closes only when the target is the overlay
background itself or the close button. -/
def overlayClick (t : ClickTarget) (s : LightboxState) : LightboxState :=
  if t = .overlayEl ∨ t = .closeBtnEl then closeLightbox s else s

/-- The document-level keydown handler: Escape closes the lightbox. -/
def documentKeydown (key : String) (s : LightboxState) : LightboxState :=
  if key = "Escape" then closeLightbox s else s

/-- The DOM's `img.alt` property: the empty string when the attribute is
absent. -/
def imgAltAttr (alt : Option String) : String :=
  alt.getD ""

/-- Click handler wired on each `.js-lightbox` trigger image: opens the
lightbox with that image's `src` and `alt`. -/
def triggerClick (src : String) (alt : Option String) (s : LightboxState) :
    LightboxState :=
  openLightbox src (imgAltAttr alt) s

/-- Page-level view for the lightbox script's `DOMContentLoaded` handler:
which of the required elements exist, whether the script got to register
its event listeners, and the lightbox DOM state. -/
structure LightboxPage where
  overlayPresent : Bool
  imgPresent : Bool
  handlersRegistered : Bool
  state : LightboxState
deriving DecidableEq, Repr

/-- The `DOMContentLoaded` handler of `lightbox.js`: `if (!overlay ||
!bigImg) return;` otherwise the click/keydown listeners are registered. -/
def lightboxInit (p : LightboxPage) : LightboxPage :=
  if p.overlayPresent = false ∨ p.imgPresent = false then p
  else { p with handlersRegistered := true }

/-- Browser dispatch of a click on a trigger image: runs the registered
handler, if any. -/
def pageTriggerClick (src : String) (alt : Option String) (p : LightboxPage) :
    LightboxPage :=
  if p.handlersRegistered then { p with state := triggerClick src alt p.state }
  else p

/-- Browser dispatch of a keydown event: runs the registered handler, if
any. -/
def pageKeydown (key : String) (p : LightboxPage) : LightboxPage :=
  if p.handlersRegistered then { p with state := documentKeydown key p.state }
  else p

/-- Browser dispatch of a click inside the overlay: runs the registered
handler, if any. -/
def pageOverlayClick (t : ClickTarget) (p : LightboxPage) : LightboxPage :=
  if p.handlersRegistered then { p with state := overlayClick t p.state }
  else p

/-! ### Theme controller, `src/static/js/theme.js` -/

/-- DOM and storage state touched by the theme script: whether `body`
carries the `dark-theme` class, the icon element's text (`none` when the
`themeToggleIcon` element is absent), and the `localStorage` cell under
the key `koshkina-theme` (`none` when the key is absent). -/
structure ThemeState where
  darkTheme : Bool
  iconText : Option String
  stored : Option String
deriving DecidableEq, Repr

/-- `window.localStorage.setItem("koshkina-theme", v)`: throws when
storage is unavailable, otherwise overwrites the cell. -/
def setItem (writeOk : Bool) (v : String) (_cell : Option String) :
    Except Unit (Option String) :=
  if writeOk then .ok (some v) else .error ()

/-- `window.localStorage.getItem("koshkina-theme")`: throws when storage
is unavailable, otherwise returns the cell (`null` when absent). -/
def getItem (readOk : Bool) (cell : Option String) :
    Except Unit (Option String) :=
  if readOk then .ok cell else .error ()

/-- The icon glyph chosen by `applyTheme`: moon for dark, sun otherwise. -/
def themeGlyph (theme : String) : String :=
  if theme = "dark" then "🌙" else "☀️"

/-- `applyTheme(theme)`: toggles the `dark-theme` class, updates the icon
glyph when the icon element exists, and writes the theme to storage,
ignoring a storage exception. -/
def applyTheme (writeOk : Bool) (theme : String) (s : ThemeState) :
    ThemeState :=
  { darkTheme := theme == "dark"
    iconText := s.iconText.map (fun _ => themeGlyph theme)
    stored :=
      match setItem writeOk theme s.stored with
      | .ok cell => cell
      | .error _ => s.stored }

/-- The `DOMContentLoaded` body of `theme.js`: read the saved theme
(falling back to `null` when the read throws), apply it when it is exactly
`"dark"` or `"light"`, otherwise apply `"light"`. -/
def themeLoad (readOk writeOk : Bool) (s : ThemeState) : ThemeState :=
  let savedTheme : Option String :=
    match getItem readOk s.stored with
    | .ok v => v
    | .error _ => none
  match savedTheme with
  | some v =>
      if v = "dark" ∨ v = "light" then applyTheme writeOk v s
      else applyTheme writeOk "light" s
  | none => applyTheme writeOk "light" s

/-- The toggle button's click handler: flip the currently applied theme
and reapply. -/
def toggleClick (writeOk : Bool) (s : ThemeState) : ThemeState :=
  applyTheme writeOk (if s.darkTheme then "light" else "dark") s

/-- The theme name rendered by the current `dark-theme` class. -/
def themeName (dark : Bool) : String :=
  if dark then "dark" else "light"

/-- Consistency of the theme state, as established by any `applyTheme`
call (in particular by the load handler, which always runs before the
toggle listener can fire): the icon glyph and, when storage accepts
writes, the stored value both match the applied theme. -/
def themeConsistent (writeOk : Bool) (s : ThemeState) : Prop :=
  (s.iconText = none ∨ s.iconText = some (themeGlyph (themeName s.darkTheme)))
    ∧ (writeOk = true → s.stored = some (themeName s.darkTheme))

/-- Valid persisted preference: exactly `"light"` or `"dark"`. -/
def storedValid (s : ThemeState) : Prop :=
  s.stored = some "light" ∨ s.stored = some "dark"

/-! ### Theorems -/

theorem jsOrEmpty_eq (s : String) : jsOrEmpty s = s := by
  unfold jsOrEmpty
  split <;> simp_all

/-- Claim C1: on page load with a readable store, the `dark-theme` class is
present iff the stored value is exactly `"dark"`; every other stored value,
absent included, yields the light theme (sun glyph on the icon). -/
theorem theme_load_applies_stored (writeOk : Bool) (s : ThemeState) :
    ((themeLoad true writeOk s).darkTheme = true ↔ s.stored = some "dark") ∧
    (themeLoad true writeOk s).iconText =
      s.iconText.map (fun _ => if s.stored = some "dark" then "🌙" else "☀️") := by
  cases hst : s.stored with
  | none => simp [themeLoad, getItem, applyTheme, themeGlyph, hst]
  | some v =>
    by_cases hd : v = "dark"
    · subst hd
      simp [themeLoad, getItem, applyTheme, themeGlyph, hst]
    · by_cases hl : v = "light"
      · subst hl
        simp [themeLoad, getItem, applyTheme, themeGlyph, hst]
      · simp [themeLoad, getItem, applyTheme, themeGlyph, hst, hd, hl]

/-- Claim C2: from every lightbox state, each of the three closing paths —
a click targeting the overlay background, a click targeting the close
control, and an Escape keydown — leaves the overlay closed with an empty
image source. -/
theorem lightbox_close_paths (s : LightboxState) :
    ((overlayClick .overlayEl s).isOpen = false ∧
      (overlayClick .overlayEl s).imgSrc = "") ∧
    ((overlayClick .closeBtnEl s).isOpen = false ∧
      (overlayClick .closeBtnEl s).imgSrc = "") ∧
    ((documentKeydown "Escape" s).isOpen = false ∧
      (documentKeydown "Escape" s).imgSrc = "") := by
  simp [overlayClick, documentKeydown, closeLightbox]

/-- Claim C3: clicking a trigger image with source `src` and alt `alt`
leaves the overlay open with image source `src` and alt text `alt` (the
empty string when the alt attribute is absent). -/
theorem lightbox_open_sets_source_and_alt (src : String) (alt : Option String)
    (s : LightboxState) :
    (triggerClick src alt s).isOpen = true ∧
    (triggerClick src alt s).imgSrc = src ∧
    (triggerClick src alt s).imgAlt = alt.getD "" := by
  simp [triggerClick, openLightbox, imgAltAttr, jsOrEmpty_eq]

/-- Claim C4, counterexample: with an absent stored value and working
storage, the load handler itself writes `"light"` to the storage key, so
the persisted preference is mutated by an operation other than a toggle
click. -/
theorem theme_load_writes_storage_cex :
    (themeLoad true true ⟨false, none, none⟩).stored = some "light" ∧
    (⟨false, none, none⟩ : ThemeState).stored = none :=
  ⟨rfl, rfl⟩

theorem themeLoad_stored (s : ThemeState) :
    (themeLoad true true s).stored =
      some (if s.stored = some "dark" then "dark" else "light") := by
  cases hst : s.stored with
  | none => simp [themeLoad, getItem, applyTheme, setItem, hst]
  | some v =>
    by_cases hd : v = "dark"
    · subst hd
      simp [themeLoad, getItem, applyTheme, setItem, hst]
    · by_cases hl : v = "light"
      · subst hl
        simp [themeLoad, getItem, applyTheme, setItem, hst]
      · simp [themeLoad, getItem, applyTheme, setItem, hst, hd, hl]

theorem toggleClick_stored (s : ThemeState) :
    (toggleClick true s).stored =
      some (if s.darkTheme then "light" else "dark") := by
  cases hd : s.darkTheme <;>
    simp [toggleClick, applyTheme, setItem, hd]

/-- Claim C4, amended: the storage key is written by `applyTheme`, which
runs on load as well as on toggle: the load handler writes the applied
theme back (overwriting absent or invalid values with `"light"`), and each
toggle click writes the flipped theme. -/
theorem theme_storage_written_on_load_and_toggle (s : ThemeState) :
    (themeLoad true true s).stored =
      some (if s.stored = some "dark" then "dark" else "light") ∧
    (toggleClick true s).stored =
      some (if s.darkTheme then "light" else "dark") :=
  ⟨themeLoad_stored s, toggleClick_stored s⟩

/-- Claim C5, counterexample: closing the lightbox does not clear the alt
text: from an open state showing alt `"a cat"`, `closeLightbox` leaves the
alt equal to `"a cat"`, not empty. -/
theorem close_keeps_alt_cex :
    (closeLightbox ⟨true, "cat.jpg", "a cat"⟩).imgAlt = "a cat" ∧
    (closeLightbox ⟨true, "cat.jpg", "a cat"⟩).imgAlt ≠ "" := by
  constructor
  · rfl
  · decide

/-- Claim C5, amended: closing the lightbox clears the displayed image's
source URL and marks the overlay closed, but leaves the alt text
unchanged (it is only overwritten by the next open). -/
theorem close_clears_source_not_alt (s : LightboxState) :
    (closeLightbox s).isOpen = false ∧
    (closeLightbox s).imgSrc = "" ∧
    (closeLightbox s).imgAlt = s.imgAlt := by
  simp [closeLightbox]

/-- Claim C6: from any consistent theme state (as left by `applyTheme`,
hence by the load handler that always precedes toggle clicks), two toggle
clicks restore the whole state: `dark-theme` class, icon glyph and stored
preference. -/
theorem toggle_twice_id (writeOk : Bool) (s : ThemeState)
    (h : themeConsistent writeOk s) :
    toggleClick writeOk (toggleClick writeOk s) = s := by
  obtain ⟨hIcon, hStored⟩ := h
  cases s with
  | mk d i st =>
    cases d <;> cases writeOk <;>
      rcases hIcon with hIcon | hIcon <;>
        simp_all [toggleClick, applyTheme, setItem, themeGlyph, themeName]

/-- Witness for C6 at the concrete post-load light state. -/
theorem toggle_twice_id_witness :
    themeConsistent true ⟨false, some "☀️", some "light"⟩ ∧
    toggleClick true (toggleClick true ⟨false, some "☀️", some "light"⟩) =
      ⟨false, some "☀️", some "light"⟩ := by
  have hc : themeConsistent true ⟨false, some "☀️", some "light"⟩ := by
    constructor
    · right
      rfl
    · intro _
      rfl
  exact ⟨hc, toggle_twice_id true _ hc⟩

/-- Claim C7: while the lightbox is open, a click whose target is the
displayed image itself changes nothing: the whole lightbox state is
unchanged and the overlay stays open. -/
theorem image_click_keeps_open (s : LightboxState) (h : s.isOpen = true) :
    overlayClick .imageEl s = s ∧
    (overlayClick .imageEl s).isOpen = true := by
  constructor
  · simp [overlayClick]
  · simp [overlayClick, h]

/-- Witness for C7 at a concrete open state. -/
theorem image_click_keeps_open_witness :
    (⟨true, "cat.jpg", "a cat"⟩ : LightboxState).isOpen = true ∧
    overlayClick .imageEl ⟨true, "cat.jpg", "a cat"⟩ =
      (⟨true, "cat.jpg", "a cat"⟩ : LightboxState) :=
  ⟨rfl, (image_click_keeps_open ⟨true, "cat.jpg", "a cat"⟩ rfl).1⟩

/-- Claim C8: storage failures are caught and ignored: a throwing write
leaves the in-memory theme (class and icon) exactly as a working write
would and the stored cell untouched, and a throwing read makes load apply
the `"light"` default; both functions are total, so no error escapes. -/
theorem storage_failure_ignored (theme : String) (s : ThemeState) :
    (applyTheme false theme s).darkTheme = (applyTheme true theme s).darkTheme ∧
    (applyTheme false theme s).iconText = (applyTheme true theme s).iconText ∧
    (applyTheme false theme s).stored = s.stored ∧
    (themeLoad false false s).darkTheme = false ∧
    (themeLoad false false s).iconText =
      s.iconText.map (fun _ => themeGlyph "light") ∧
    (themeLoad false false s).stored = s.stored := by
  refine ⟨rfl, rfl, rfl, ?_, ?_, ?_⟩ <;>
    simp [themeLoad, getItem, applyTheme, setItem, themeGlyph]

/-- Claim C9: when the overlay or the enlarged-image element is absent,
initialization returns early: the page is unchanged, no handlers are
registered, and trigger clicks, keydowns and overlay clicks all leave the
page untouched. -/
theorem lightbox_missing_elements_inactive (p : LightboxPage)
    (hAbsent : p.overlayPresent = false ∨ p.imgPresent = false)
    (hFresh : p.handlersRegistered = false) :
    lightboxInit p = p ∧
    (∀ src alt, pageTriggerClick src alt (lightboxInit p) = lightboxInit p) ∧
    (∀ key, pageKeydown key (lightboxInit p) = lightboxInit p) ∧
    (∀ t, pageOverlayClick t (lightboxInit p) = lightboxInit p) := by
  have h1 : lightboxInit p = p := by
    unfold lightboxInit
    rw [if_pos hAbsent]
  refine ⟨h1, ?_, ?_, ?_⟩ <;>
    intro _ <;>
    simp [pageTriggerClick, pageKeydown, pageOverlayClick, h1, hFresh]

/-- A fresh page whose overlay element is missing. -/
def pageNoOverlay : LightboxPage :=
  ⟨false, true, false, ⟨false, "", ""⟩⟩

/-- Witness for C9 on a fresh page missing the overlay element. -/
theorem lightbox_missing_elements_inactive_witness :
    lightboxInit pageNoOverlay = pageNoOverlay ∧
    pageTriggerClick "cat.jpg" (some "a cat") (lightboxInit pageNoOverlay) =
      lightboxInit pageNoOverlay ∧
    pageKeydown "Escape" (lightboxInit pageNoOverlay) =
      lightboxInit pageNoOverlay ∧
    pageOverlayClick .overlayEl (lightboxInit pageNoOverlay) =
      lightboxInit pageNoOverlay := by
  obtain ⟨h1, h2, h3, h4⟩ :=
    lightbox_missing_elements_inactive pageNoOverlay (Or.inl rfl) rfl
  exact ⟨h1, h2 "cat.jpg" (some "a cat"), h3 "Escape", h4 .overlayEl⟩

/-- Claim C10: with working storage, the load handler always leaves the
stored value exactly `"light"` or `"dark"` — an absent or invalid value is
overwritten with `"light"` — and every toggle click preserves validity. -/
theorem stored_always_valid (s : ThemeState) :
    storedValid (themeLoad true true s) ∧
    (s.stored ≠ some "dark" → s.stored ≠ some "light" →
      (themeLoad true true s).stored = some "light") ∧
    (∀ t : ThemeState, storedValid t → storedValid (toggleClick true t)) := by
  have hLoad := themeLoad_stored s
  refine ⟨?_, ?_, ?_⟩
  · rw [storedValid, hLoad]
    by_cases hd : s.stored = some "dark" <;> simp [hd]
  · intro hd hl
    rw [hLoad, if_neg hd]
  · intro t _
    have hTog := toggleClick_stored t
    rw [storedValid, hTog]
    cases ht : t.darkTheme <;> simp

/-- Witness for C10: load on an absent value stores `"light"`, and a
toggle from a valid stored value keeps it valid. -/
theorem stored_always_valid_witness :
    storedValid (themeLoad true true ⟨false, none, none⟩) ∧
    (themeLoad true true ⟨false, none, none⟩).stored = some "light" ∧
    storedValid (toggleClick true ⟨false, none, some "light"⟩) := by
  obtain ⟨h1, h2, h3⟩ := stored_always_valid ⟨false, none, none⟩
  refine ⟨h1, h2 (by simp) (by simp), ?_⟩
  exact (stored_always_valid ⟨false, none, some "light"⟩).2.2
    ⟨false, none, some "light"⟩ (Or.inl rfl)

end Koshkina
